import Mathlib

/-!
Formal model of `src/examples/gizmo/example_03_render_targets.c` from the
raylib-gizmo repository: four viewports, each rendered to its own render
target, with the translate gizmo active in the viewport under the cursor.

All floating-point values appearing in the program (window halves 480 and
270, rectangle coordinates, mouse scale 1.0) are small integers or exact
halves, exactly representable in binary floating point, and every operation
performed on them (halving, integer casts, the divisions 480/480 and
270/270) is exact; the model therefore uses `ℚ` for the float fields and
`ℤ` for the int fields, which is value-faithful to the C program.
-/

namespace Example03

/-- Mirrors raylib `Vector2` (two float components). -/
structure Vector2 where
  x : ℚ
  y : ℚ
deriving DecidableEq

/-- Mirrors raylib `Vector3`. -/
structure Vector3 where
  x : ℚ
  y : ℚ
  z : ℚ
deriving DecidableEq

/-- Mirrors raylib `Rectangle` (x, y, width, height as floats). -/
structure Rectangle where
  x : ℚ
  y : ℚ
  width : ℚ
  height : ℚ
deriving DecidableEq

/-- Mirrors raylib `Color` (r, g, b, a bytes). -/
structure Color where
  r : ℕ
  g : ℕ
  b : ℕ
  a : ℕ
deriving DecidableEq

/-- Mirrors the texture part of raylib `RenderTexture`: the pixel size the
target was allocated with (`LoadRenderTexture((int)HALF_W, (int)HALF_H)`),
as `rt.texture.width` / `rt.texture.height` are ints. -/
structure RenderTexture where
  width : ℤ
  height : ℤ
deriving DecidableEq

/-- Mirrors raylib `Camera3D`. `projection` is the raylib enum value
(`CAMERA_PERSPECTIVE = 0`). -/
structure Camera where
  position : Vector3
  target : Vector3
  up : Vector3
  fovy : ℚ
  projection : ℕ
deriving DecidableEq

/-- The `Viewport` struct of the example (screen rectangle, render target,
per-viewport camera, background color). -/
structure Viewport where
  area : Rectangle
  rt : RenderTexture
  camera : Camera
  clearColor : Color
deriving DecidableEq

/-- C cast `(int)q` on a float value: truncation toward zero. -/
def truncQ (q : ℚ) : ℤ := if 0 ≤ q then ⌊q⌋ else -⌊-q⌋

/-! Constants of the example (`#define SCREEN_WIDTH 960` etc.). -/

def SCREEN_WIDTH : ℕ := 960

def SCREEN_HEIGHT : ℕ := 540

def VIEWPORT_COUNT : ℕ := 4

/-- `const float HALF_W = (float)SCREEN_WIDTH * 0.5f;` — exact in float. -/
def HALF_W : ℚ := (SCREEN_WIDTH : ℚ) * (1 / 2)

/-- `const float HALF_H = (float)SCREEN_HEIGHT * 0.5f;` — exact in float. -/
def HALF_H : ℚ := (SCREEN_HEIGHT : ℚ) * (1 / 2)

/-! Raylib color constants used by `BACK_COLORS`. -/

def BLACK : Color := ⟨0, 0, 0, 255⟩

def PURPLE : Color := ⟨200, 122, 255, 255⟩

def ORANGE : Color := ⟨255, 161, 0, 255⟩

def RED : Color := ⟨230, 41, 55, 255⟩

def BACK_COLORS : Fin 4 → Color := ![BLACK, PURPLE, ORANGE, RED]

/-- The `CAM_POSITIONS` table of the example. -/
def CAM_POSITIONS : Fin 4 → Vector3 :=
  ![⟨-(11/2), 11/2, 2⟩, ⟨11/2, 11/2, 2⟩, ⟨-(5/2), 5/2, 2⟩, ⟨5/2, 5/2, 2⟩]

/-- `CreateCamera` from the example: fixed up vector (0,1,0), fovy 45,
perspective projection. -/
def CreateCamera (position target : Vector3) : Camera :=
  { position := position
    target := target
    up := ⟨0, 1, 0⟩
    fovy := 45
    projection := 0 }

/-- Body of the viewport-construction loop (source lines 107–116):
`col = i % 2`, `row = i / 2`, area `{col*HALF_W, row*HALF_H, HALF_W, HALF_H}`,
render target allocated with pixel size `((int)HALF_W, (int)HALF_H)`.
Parametrised over the camera-position table so camera independence can be
stated. -/
def mkViewport (cams : Fin 4 → Vector3) (i : Fin 4) : Viewport :=
  let col : ℚ := ((i : ℕ) % 2 : ℕ)
  let row : ℚ := ((i : ℕ) / 2 : ℕ)
  { area := ⟨col * HALF_W, row * HALF_H, HALF_W, HALF_H⟩
    clearColor := BACK_COLORS i
    camera := CreateCamera (cams i) ⟨0, 0, 0⟩
    rt := ⟨truncQ HALF_W, truncQ HALF_H⟩ }

/-- The viewport array `view[VIEWPORT_COUNT]` in construction order. -/
def mkViews (cams : Fin 4 → Vector3) : List Viewport :=
  [mkViewport cams 0, mkViewport cams 1, mkViewport cams 2, mkViewport cams 3]

/-- The actual viewport array of the program. -/
def theViews : List Viewport := mkViews CAM_POSITIONS

/-- The viewport at index `i`. -/
def theView (i : Fin 4) : Viewport := mkViewport CAM_POSITIONS i

/-- The screen rectangle of viewport `i`. -/
def theArea (i : Fin 4) : Rectangle := (theView i).area

/-- Raylib `CheckCollisionPointRec`: point-in-rectangle, half-open on the
far edges (`p.x >= r.x && p.x < r.x + r.width`, same for y). Raylib itself
is a third-party black box here; this is its documented containment test,
the "rectangle containment test" of the spec (section 4.3). -/
def CheckCollisionPointRec (p : Vector2) (r : Rectangle) : Bool :=
  decide (r.x ≤ p.x) && decide (p.x < r.x + r.width) &&
  decide (r.y ≤ p.y) && decide (p.y < r.y + r.height)

/-- Raylib mouse remap state: additive int offset and multiplicative float
scale, set by `SetMouseOffset` / `SetMouseScale`. -/
structure MouseRemap where
  offset : ℤ × ℤ
  scale : ℚ × ℚ
deriving DecidableEq

/-- The default remap: offset (0,0), scale (1,1). -/
def MouseRemap.identity : MouseRemap := ⟨(0, 0), (1, 1)⟩

/-- Raylib `GetMousePosition` under a remap: `(raw + offset) * scale`,
componentwise. -/
def remappedMouse (m : MouseRemap) (p : Vector2) : Vector2 :=
  ⟨(p.x + (m.offset.1 : ℚ)) * m.scale.1, (p.y + (m.offset.2 : ℚ)) * m.scale.2⟩

/-- The remap the example installs for a viewport (source lines 142–144):
`SetMouseOffset(-(int)area.x, -(int)area.y)` and
`SetMouseScale(rt.texture.width / area.width, rt.texture.height / area.height)`. -/
def installedRemap (v : Viewport) : MouseRemap :=
  { offset := (-(truncQ v.area.x), -(truncQ v.area.y))
    scale := ((v.rt.width : ℚ) / v.area.width, (v.rt.height : ℚ) / v.area.height) }

/-- Mirrors raylib `Quaternion` (x, y, z, w). -/
structure Quaternion where
  x : ℚ
  y : ℚ
  z : ℚ
  w : ℚ
deriving DecidableEq

/-- Mirrors raylib `Transform`: translation, rotation, scale. This is the
type of `crateTransform`. -/
structure Transform where
  translation : Vector3
  rotation : Quaternion
  scale : Vector3
deriving DecidableEq

/-- Mirrors raylib `Matrix`: 16 floats, where (m0, m4, m8, m12) is the
first row. -/
structure Matrix4 where
  m0 : ℚ
  m1 : ℚ
  m2 : ℚ
  m3 : ℚ
  m4 : ℚ
  m5 : ℚ
  m6 : ℚ
  m7 : ℚ
  m8 : ℚ
  m9 : ℚ
  m10 : ℚ
  m11 : ℚ
  m12 : ℚ
  m13 : ℚ
  m14 : ℚ
  m15 : ℚ
deriving DecidableEq

/-- Raymath `MatrixIdentity`. -/
def MatrixIdentity : Matrix4 :=
  ⟨1, 0, 0, 0, 0, 1, 0, 0, 0, 0, 1, 0, 0, 0, 0, 1⟩

/-- Raymath `MatrixMultiply(left, right)`:
`result.m(4r+c) = Σ k, left.m(4r+k) * right.m(4k+c)`. -/
def MatrixMultiply (l r : Matrix4) : Matrix4 where
  m0 := l.m0 * r.m0 + l.m1 * r.m4 + l.m2 * r.m8 + l.m3 * r.m12
  m1 := l.m0 * r.m1 + l.m1 * r.m5 + l.m2 * r.m9 + l.m3 * r.m13
  m2 := l.m0 * r.m2 + l.m1 * r.m6 + l.m2 * r.m10 + l.m3 * r.m14
  m3 := l.m0 * r.m3 + l.m1 * r.m7 + l.m2 * r.m11 + l.m3 * r.m15
  m4 := l.m4 * r.m0 + l.m5 * r.m4 + l.m6 * r.m8 + l.m7 * r.m12
  m5 := l.m4 * r.m1 + l.m5 * r.m5 + l.m6 * r.m9 + l.m7 * r.m13
  m6 := l.m4 * r.m2 + l.m5 * r.m6 + l.m6 * r.m10 + l.m7 * r.m14
  m7 := l.m4 * r.m3 + l.m5 * r.m7 + l.m6 * r.m11 + l.m7 * r.m15
  m8 := l.m8 * r.m0 + l.m9 * r.m4 + l.m10 * r.m8 + l.m11 * r.m12
  m9 := l.m8 * r.m1 + l.m9 * r.m5 + l.m10 * r.m9 + l.m11 * r.m13
  m10 := l.m8 * r.m2 + l.m9 * r.m6 + l.m10 * r.m10 + l.m11 * r.m14
  m11 := l.m8 * r.m3 + l.m9 * r.m7 + l.m10 * r.m11 + l.m11 * r.m15
  m12 := l.m12 * r.m0 + l.m13 * r.m4 + l.m14 * r.m8 + l.m15 * r.m12
  m13 := l.m12 * r.m1 + l.m13 * r.m5 + l.m14 * r.m9 + l.m15 * r.m13
  m14 := l.m12 * r.m2 + l.m13 * r.m6 + l.m14 * r.m10 + l.m15 * r.m14
  m15 := l.m12 * r.m3 + l.m13 * r.m7 + l.m14 * r.m11 + l.m15 * r.m15

/-- Raymath `MatrixScale(x, y, z)`: diagonal scale matrix. -/
def MatrixScale (x y z : ℚ) : Matrix4 :=
  ⟨x, 0, 0, 0, 0, y, 0, 0, 0, 0, z, 0, 0, 0, 0, 1⟩

/-- Raymath `MatrixTranslate(x, y, z)`: identity with translation in
m12, m13, m14. -/
def MatrixTranslate (x y z : ℚ) : Matrix4 :=
  ⟨1, 0, 0, 0, 0, 1, 0, 0, 0, 0, 1, 0, x, y, z, 1⟩

/-- Raymath `QuaternionToMatrix`: standard quaternion-to-rotation-matrix
formula. -/
def QuaternionToMatrix (q : Quaternion) : Matrix4 :=
  let a2 := q.x * q.x
  let b2 := q.y * q.y
  let c2 := q.z * q.z
  let ac := q.x * q.z
  let ab := q.x * q.y
  let bc := q.y * q.z
  let ad := q.w * q.x
  let bd := q.w * q.y
  let cd := q.w * q.z
  { MatrixIdentity with
    m0 := 1 - 2 * (b2 + c2)
    m1 := 2 * (ab + cd)
    m2 := 2 * (ac - bd)
    m4 := 2 * (ab - cd)
    m5 := 1 - 2 * (a2 + c2)
    m6 := 2 * (bc + ad)
    m8 := 2 * (ac + bd)
    m9 := 2 * (bc - ad)
    m10 := 1 - 2 * (a2 + b2) }

/-- Modelled from the spec: `GizmoIdentity` of the gizmo library (not under
`src/`), which per the spec "represent[s] an identity transform" — zero
translation, identity quaternion, unit scale. -/
def GizmoIdentity : Transform :=
  { translation := ⟨0, 0, 0⟩
    rotation := ⟨0, 0, 0, 1⟩
    scale := ⟨1, 1, 1⟩ }

/-- Modelled from the spec: `GizmoToMatrix` of the gizmo library (not under
`src/`), which per the spec "compose[s] a transform into a drawable world
matrix" with "position/rotation/scale composed in a fixed, library-defined
order" — here scale · rotation · translation. -/
def GizmoToMatrix (t : Transform) : Matrix4 :=
  MatrixMultiply
    (MatrixMultiply (MatrixScale t.scale.x t.scale.y t.scale.z)
      (QuaternionToMatrix t.rotation))
    (MatrixTranslate t.translation.x t.translation.y t.translation.z)

/-! The per-frame loop body (source lines 129–166). -/

/-- The externally supplied gizmo update (`DrawGizmo3D(GIZMO_TRANSLATE, &t)`):
it reads the pointer through the current mouse remap and may mutate the
transform in place. Modelled as an arbitrary function of the remapped
pointer and the current transform. -/
def GizmoFun : Type := Vector2 → Transform → Transform

/-- The mutable state threaded through the viewport loop: the global mouse
remap (raylib state set by `SetMouseOffset`/`SetMouseScale`) and the shared
`crateTransform`. -/
structure LoopState where
  remap : MouseRemap
  crate : Transform
deriving DecidableEq

/-- Observables of one iteration of the viewport loop. -/
structure ViewportOutput where
  drawnMatrix : Matrix4
  remapAtStart : MouseRemap
  remapAtEnd : MouseRemap
  remapInstalled : Option MouseRemap
  gizmoRan : Bool
deriving DecidableEq

/-- One iteration of the viewport loop (source lines 129–166):
recompute the crate's world matrix from the shared transform and draw the
model (lines 136–137); if `GetMousePosition()` (remapped through the
current mouse state) is inside this viewport's area (line 140), install the
viewport's remap (lines 142–144), run the gizmo on the shared transform
(line 146), then restore offset (0,0) and scale (1,1) (lines 148–149). -/
def processViewport (gizmo : GizmoFun) (rawMouse : Vector2) (v : Viewport)
    (s : LoopState) : LoopState × ViewportOutput :=
  let drawn := GizmoToMatrix s.crate
  if CheckCollisionPointRec (remappedMouse s.remap rawMouse) v.area then
    let inst := installedRemap v
    let crate' := gizmo (remappedMouse inst rawMouse) s.crate
    (⟨MouseRemap.identity, crate'⟩,
      ⟨drawn, s.remap, MouseRemap.identity, some inst, true⟩)
  else
    (s, ⟨drawn, s.remap, s.remap, none, false⟩)

/-- The viewport loop over a list of viewports, in order, threading the
loop state and collecting each iteration's observables. -/
def processViewports (gizmo : GizmoFun) (rawMouse : Vector2) :
    List Viewport → LoopState → LoopState × List ViewportOutput
  | [], s => (s, [])
  | v :: rest, s =>
    let r := processViewport gizmo rawMouse v s
    let rs := processViewports gizmo rawMouse rest r.1
    (rs.1, r.2 :: rs.2)

/-! Trace model of a whole run of `main`: a list of per-frame mouse
positions stands for the frames the loop executes before
`WindowShouldClose()` becomes true; after the loop, the cleanup sequence of
source lines 174–177 runs. -/

/-- Observable events of a run: the per-viewport frame events and the
cleanup calls `UnloadRenderTexture(view[k].rt)`, `UnloadTexture`,
`UnloadModel`, `CloseWindow`. -/
inductive Event where
  | renderPass (k : ℕ)
  | gizmoCall (k : ℕ)
  | composite (k : ℕ)
  | unloadRenderTexture (k : ℕ)
  | unloadTexture
  | unloadModel
  | closeWindow
deriving DecidableEq

/-- Whether an event is one of the in-loop (frame) events. -/
def Event.isFrameEvent : Event → Bool
  | .renderPass _ => true
  | .gizmoCall _ => true
  | .composite _ => true
  | _ => false

/-- The events of one viewport iteration: render pass, optional gizmo
call, composite draw. -/
def viewportEvents (k : ℕ) (o : ViewportOutput) : List Event :=
  Event.renderPass k ::
    ((if o.gizmoRan then [Event.gizmoCall k] else []) ++ [Event.composite k])

/-- Frame events of a list of viewport outputs starting at index `k`. -/
def frameTraceAux (k : ℕ) : List ViewportOutput → List Event
  | [] => []
  | o :: rest => viewportEvents k o ++ frameTraceAux (k + 1) rest

/-- The main loop: one frame per input mouse position, threading the loop
state (the remap state and the shared crate transform) across frames. -/
def runFrames (gizmo : GizmoFun) : List Vector2 → LoopState → List Event × LoopState
  | [], s => ([], s)
  | m :: ms, s =>
    let r := processViewports gizmo m theViews s
    let rest := runFrames gizmo ms r.1
    (frameTraceAux 0 r.2 ++ rest.1, rest.2)

/-- The cleanup sequence (source lines 174–177): unload the four render
targets in index order, then the crate texture, the crate model, and close
the window. -/
def cleanupTrace : List Event :=
  (List.range VIEWPORT_COUNT).map Event.unloadRenderTexture ++
    [Event.unloadTexture, Event.unloadModel, Event.closeWindow]

/-- The event trace of a terminating execution of `main`: the frames run
until the close request, then the cleanup sequence. The only exit from the
loop is its condition, so every terminating execution has this shape. -/
def mainTrace (gizmo : GizmoFun) (inputs : List Vector2) : List Event :=
  (runFrames gizmo inputs ⟨MouseRemap.identity, GizmoIdentity⟩).1 ++ cleanupTrace

/-! The compositor (source lines 156–165). -/

/-- Modelled from the spec: the sampling rule of the external blit
capability (spec section 6, "draw a texture region (with possible vertical
flip) into the currently bound target"; section 4.4, negative source height
flips vertically). Destination pixel `(u, v)` of the blit samples this
texel of the source texture: `x + u` (or mirrored when the source width is
negative), and `y + v`, or `y + |height| - 1 - v` when the source height is
negative. -/
def sampledTexel (src : Rectangle) (u v : ℚ) : Vector2 :=
  ⟨if src.width < 0 then src.x + (-src.width) - 1 - u else src.x + u,
   if src.height < 0 then src.y + (-src.height) - 1 - v else src.y + v⟩

/-- Window coordinate of destination pixel `(u, v)` of a blit at `dest`. -/
def blitDestPixel (dest : Vector2) (u v : ℚ) : Vector2 :=
  ⟨dest.x + u, dest.y + v⟩

/-- The source rectangle the example passes to `DrawTextureRec` (lines
156–161): the full texture with negated height. -/
def compositeSource (v : Viewport) : Rectangle :=
  ⟨0, 0, (v.rt.width : ℚ), -(v.rt.height : ℚ)⟩

/-- The destination position the example passes (lines 162–164): the
viewport rectangle's origin. -/
def compositeDest (v : Viewport) : Vector2 :=
  ⟨v.area.x, v.area.y⟩

/-! Helper lemmas: explicit values of the constructed viewports. -/

lemma finVal0 : ((0 : Fin 4) : ℕ) = 0 := rfl

lemma finVal1 : ((1 : Fin 4) : ℕ) = 1 := rfl

lemma finVal2 : ((2 : Fin 4) : ℕ) = 2 := rfl

lemma finVal3 : ((3 : Fin 4) : ℕ) = 3 := rfl

lemma theArea_0 : theArea 0 = ⟨0, 0, 480, 270⟩ := by
  norm_num [theArea, theView, mkViewport, HALF_W, HALF_H, SCREEN_WIDTH, SCREEN_HEIGHT, finVal0]

lemma theArea_1 : theArea 1 = ⟨480, 0, 480, 270⟩ := by
  norm_num [theArea, theView, mkViewport, HALF_W, HALF_H, SCREEN_WIDTH, SCREEN_HEIGHT, finVal1]

lemma theArea_2 : theArea 2 = ⟨0, 270, 480, 270⟩ := by
  norm_num [theArea, theView, mkViewport, HALF_W, HALF_H, SCREEN_WIDTH, SCREEN_HEIGHT, finVal2]

lemma theArea_3 : theArea 3 = ⟨480, 270, 480, 270⟩ := by
  norm_num [theArea, theView, mkViewport, HALF_W, HALF_H, SCREEN_WIDTH, SCREEN_HEIGHT, finVal3]

lemma check_iff (p : Vector2) (r : Rectangle) :
    CheckCollisionPointRec p r = true ↔
      (r.x ≤ p.x ∧ p.x < r.x + r.width ∧ r.y ≤ p.y ∧ p.y < r.y + r.height) := by
  simp [CheckCollisionPointRec, and_assoc]

/-- The four screen rectangles are pairwise disjoint: no point lies in two
of them (raylib containment is half-open on the far edges). -/
lemma contains_unique (p : Vector2) (i j : Fin 4)
    (hi : CheckCollisionPointRec p (theArea i) = true)
    (hj : CheckCollisionPointRec p (theArea j) = true) : i = j := by
  fin_cases i <;> fin_cases j <;>
    simp_all [check_iff, theArea_0, theArea_1, theArea_2, theArea_3] <;> linarith

/-- C4: the four viewport rectangles constructed at startup are exactly
`{0,0,480,270}, {480,0,480,270}, {0,270,480,270}, {480,270,480,270}` at
indices 0–3 in row-major order, each 480×270 (the window dimensions
halved), and they tile the 960×540 window with no gaps and no overlap:
every window point lies in exactly one rectangle. -/
theorem C4_viewport_rectangles_tile_window :
    (theViews.map (fun v => v.area) =
      [⟨0, 0, 480, 270⟩, ⟨480, 0, 480, 270⟩, ⟨0, 270, 480, 270⟩, ⟨480, 270, 480, 270⟩])
    ∧ (∀ i : Fin 4, (theArea i).width = (SCREEN_WIDTH : ℚ) / 2
        ∧ (theArea i).height = (SCREEN_HEIGHT : ℚ) / 2)
    ∧ (∀ p : Vector2, 0 ≤ p.x → p.x < (SCREEN_WIDTH : ℚ) →
        0 ≤ p.y → p.y < (SCREEN_HEIGHT : ℚ) →
        ∃! i : Fin 4, CheckCollisionPointRec p (theArea i) = true) := by
  refine ⟨?_, ?_, ?_⟩
  · have h : theViews.map (fun v => v.area) = [theArea 0, theArea 1, theArea 2, theArea 3] := rfl
    rw [h, theArea_0, theArea_1, theArea_2, theArea_3]
  · intro i
    fin_cases i <;>
      simp [theArea_0, theArea_1, theArea_2, theArea_3, SCREEN_WIDTH, SCREEN_HEIGHT] <;>
      norm_num
  · intro p hx0 hxw hy0 hyh
    rw [show (SCREEN_WIDTH : ℚ) = 960 by norm_num [SCREEN_WIDTH]] at hxw
    rw [show (SCREEN_HEIGHT : ℚ) = 540 by norm_num [SCREEN_HEIGHT]] at hyh
    by_cases hpx : p.x < 480 <;> by_cases hpy : p.y < 270
    · have h : CheckCollisionPointRec p (theArea 0) = true := by
        rw [check_iff, theArea_0]
        dsimp only
        refine ⟨hx0, by linarith, hy0, by linarith⟩
      exact ⟨0, h, fun j hj => contains_unique p j 0 hj h⟩
    · have h : CheckCollisionPointRec p (theArea 2) = true := by
        rw [check_iff, theArea_2]
        dsimp only
        refine ⟨hx0, by linarith, by linarith, by linarith⟩
      exact ⟨2, h, fun j hj => contains_unique p j 2 hj h⟩
    · have h : CheckCollisionPointRec p (theArea 1) = true := by
        rw [check_iff, theArea_1]
        dsimp only
        refine ⟨by linarith, by linarith, hy0, by linarith⟩
      exact ⟨1, h, fun j hj => contains_unique p j 1 hj h⟩
    · have h : CheckCollisionPointRec p (theArea 3) = true := by
        rw [check_iff, theArea_3]
        dsimp only
        refine ⟨by linarith, by linarith, by linarith, by linarith⟩
      exact ⟨3, h, fun j hj => contains_unique p j 3 hj h⟩

/-- Witness for C4 at the concrete window point (500, 300). -/
theorem C4_viewport_rectangles_tile_window_witness :
    ∃! i : Fin 4, CheckCollisionPointRec ⟨500, 300⟩ (theArea i) = true :=
  C4_viewport_rectangles_tile_window.2.2 ⟨500, 300⟩ (by norm_num)
    (by norm_num [SCREEN_WIDTH]) (by norm_num) (by norm_num [SCREEN_HEIGHT])

/-- C9: for every viewport the installed remap is an exact pure
translation: the render target's pixel size `(int)HALF_W × (int)HALF_H`
equals 480×270 and matches the rectangle's width and height exactly, so the
installed mouse scale is exactly (1, 1), and the installed offset
`(-(int)area.x, -(int)area.y)` equals the negated rectangle origin exactly
(the int cast loses nothing on the origins 0, 480, 270). -/
theorem C9_installed_remap_is_exact_translation :
    ∀ i : Fin 4,
      (theView i).rt.width = 480 ∧ (theView i).rt.height = 270
      ∧ ((theView i).rt.width : ℚ) = (theArea i).width
      ∧ ((theView i).rt.height : ℚ) = (theArea i).height
      ∧ (installedRemap (theView i)).scale = (1, 1)
      ∧ (installedRemap (theView i)).offset.1 = -(truncQ (theArea i).x)
      ∧ (installedRemap (theView i)).offset.2 = -(truncQ (theArea i).y)
      ∧ ((installedRemap (theView i)).offset.1 : ℚ) = -(theArea i).x
      ∧ ((installedRemap (theView i)).offset.2 : ℚ) = -(theArea i).y := by
  intro i
  fin_cases i <;>
    norm_num [installedRemap, theArea, theView, mkViewport, truncQ, HALF_W, HALF_H,
      SCREEN_WIDTH, SCREEN_HEIGHT, finVal0, finVal1, finVal2, finVal3, Prod.ext_iff]

/-- C3: the remap installed for a viewport maps the window-space pointer to
viewport-local space as `local = (window - rect.origin) * (targetSize /
rectSize)`; when a viewport is under the (unremapped) pointer, the gizmo is
invoked on the shared transform with exactly that local pointer; and in
particular the pointer (500, 300) lies in viewport 3's rectangle
`{480, 270, 480, 270}` and is remapped there to (20, 30). -/
theorem C3_installed_remap_maps_window_to_local :
    (∀ i : Fin 4, ∀ p : Vector2,
      remappedMouse (installedRemap (theView i)) p =
        ⟨(p.x - (theArea i).x) * (((theView i).rt.width : ℚ) / (theArea i).width),
         (p.y - (theArea i).y) * (((theView i).rt.height : ℚ) / (theArea i).height)⟩)
    ∧ (∀ i : Fin 4, ∀ p : Vector2, ∀ gizmo : GizmoFun, ∀ s : LoopState,
        s.remap = MouseRemap.identity →
        CheckCollisionPointRec p (theArea i) = true →
        (processViewport gizmo p (theView i) s).1.crate =
          gizmo (remappedMouse (installedRemap (theView i)) p) s.crate)
    ∧ CheckCollisionPointRec ⟨500, 300⟩ (theArea 3) = true
    ∧ theArea 3 = ⟨480, 270, 480, 270⟩
    ∧ remappedMouse (installedRemap (theView 3)) ⟨500, 300⟩ = ⟨20, 30⟩ := by
  refine ⟨?_, ?_, ?_, theArea_3, ?_⟩
  · intro i p
    fin_cases i <;>
      norm_num [remappedMouse, installedRemap, theArea, theView, mkViewport, truncQ,
        HALF_W, HALF_H, SCREEN_WIDTH, SCREEN_HEIGHT, finVal0, finVal1, finVal2, finVal3,
        Vector2.mk.injEq] <;>
      first
      | ring1
      | (constructor <;> ring1)
  · intro i p gizmo s hs hc
    have hid : remappedMouse s.remap p = p := by
      simp [hs, remappedMouse, MouseRemap.identity]
    unfold processViewport
    rw [hid, theArea] at *
    rw [if_pos hc]
  · rw [check_iff, theArea_3]
    norm_num
  · norm_num [remappedMouse, installedRemap, theArea, theView, mkViewport, truncQ,
      HALF_W, HALF_H, SCREEN_WIDTH, SCREEN_HEIGHT, finVal3, Vector2.mk.injEq]

/-- Witness for C3 at viewport 3, pointer (500, 300), with a gizmo that
translates by the local pointer's x. -/
theorem C3_installed_remap_maps_window_to_local_witness :
    (processViewport (fun _ t => t) ⟨500, 300⟩ (theView 3)
        ⟨MouseRemap.identity, GizmoIdentity⟩).1.crate = GizmoIdentity :=
  C3_installed_remap_maps_window_to_local.2.1 3 ⟨500, 300⟩ (fun _ t => t)
    ⟨MouseRemap.identity, GizmoIdentity⟩ rfl
    C3_installed_remap_maps_window_to_local.2.2.1

lemma remappedMouse_identity (p : Vector2) : remappedMouse MouseRemap.identity p = p := by
  simp [remappedMouse, MouseRemap.identity]

/-- Either no rectangle contains the pointer, or exactly one does. -/
lemma check_cases (mouse : Vector2) :
    (∀ i : Fin 4, CheckCollisionPointRec mouse (theArea i) = false) ∨
    (∃ k : Fin 4, CheckCollisionPointRec mouse (theArea k) = true ∧
      ∀ j : Fin 4, j ≠ k → CheckCollisionPointRec mouse (theArea j) = false) := by
  by_cases hx : ∃ i : Fin 4, CheckCollisionPointRec mouse (theArea i) = true
  · obtain ⟨k, hk⟩ := hx
    refine Or.inr ⟨k, hk, fun j hj => ?_⟩
    cases hcj : CheckCollisionPointRec mouse (theArea j)
    · rfl
    · exact absurd (contains_unique mouse j k hcj hk) hj
  · refine Or.inl fun i => ?_
    cases hci : CheckCollisionPointRec mouse (theArea i)
    · rfl
    · exact absurd ⟨i, hci⟩ hx

/-- C6: the world matrix computed by `GizmoToMatrix` from the identity
transform (`GizmoIdentity`) is the identity matrix, and in every viewport
render pass — for any camera-position table, any gizmo behaviour, any mouse
position and any remap state — a pass whose incoming shared transform is
the identity draws the identity world matrix. -/
theorem C6_identity_transform_yields_identity_matrix :
    GizmoToMatrix GizmoIdentity = MatrixIdentity
    ∧ (∀ cams : Fin 4 → Vector3, ∀ i : Fin 4, ∀ gizmo : GizmoFun, ∀ mouse : Vector2,
        ∀ r : MouseRemap,
        (processViewport gizmo mouse (mkViewport cams i)
            ⟨r, GizmoIdentity⟩).2.drawnMatrix = MatrixIdentity) := by
  have h : GizmoToMatrix GizmoIdentity = MatrixIdentity := by
    simp [GizmoToMatrix, GizmoIdentity, MatrixMultiply, MatrixScale, MatrixTranslate,
      QuaternionToMatrix, MatrixIdentity]
  refine ⟨h, fun cams i gizmo mouse r => ?_⟩
  by_cases hc : CheckCollisionPointRec (remappedMouse r mouse) (mkViewport cams i).area = true
  · simp [processViewport, hc, h]
  · simp [processViewport, hc, h]

/-- C1: in a frame (remap state starting at identity), the gizmo call of
viewport `i` runs exactly when viewport `i`'s rectangle contains the mouse
(first conjunct); the rectangles are pairwise exclusive (third conjunct),
so at most one gizmo call — hence at most one writer of the shared
transform — happens per frame (second conjunct), and the "pointer inside
several rectangles" tie-break situation cannot arise at all. -/
theorem C1_at_most_one_active_viewport (gizmo : GizmoFun) (mouse : Vector2)
    (s : LoopState) (hs : s.remap = MouseRemap.identity) :
    ((processViewports gizmo mouse theViews s).2.map (fun o => o.gizmoRan) =
      [CheckCollisionPointRec mouse (theArea 0), CheckCollisionPointRec mouse (theArea 1),
       CheckCollisionPointRec mouse (theArea 2), CheckCollisionPointRec mouse (theArea 3)])
    ∧ ((processViewports gizmo mouse theViews s).2.countP (fun o => o.gizmoRan) ≤ 1)
    ∧ (∀ i j : Fin 4, CheckCollisionPointRec mouse (theArea i) = true →
        CheckCollisionPointRec mouse (theArea j) = true → i = j) := by
  have hmap : (processViewports gizmo mouse theViews s).2.map (fun o => o.gizmoRan) =
      [CheckCollisionPointRec mouse (theArea 0), CheckCollisionPointRec mouse (theArea 1),
       CheckCollisionPointRec mouse (theArea 2), CheckCollisionPointRec mouse (theArea 3)] := by
    by_cases h0 : CheckCollisionPointRec mouse ((mkViewport CAM_POSITIONS 0).area) = true <;>
    by_cases h1 : CheckCollisionPointRec mouse ((mkViewport CAM_POSITIONS 1).area) = true <;>
    by_cases h2 : CheckCollisionPointRec mouse ((mkViewport CAM_POSITIONS 2).area) = true <;>
    by_cases h3 : CheckCollisionPointRec mouse ((mkViewport CAM_POSITIONS 3).area) = true <;>
      simp [processViewports, processViewport, theViews, mkViews, theArea, theView, hs,
        remappedMouse_identity, h0, h1, h2, h3]
  refine ⟨hmap, ?_, fun i j hi hj => contains_unique mouse i j hi hj⟩
  have hc : (processViewports gizmo mouse theViews s).2.countP (fun o => o.gizmoRan) =
      ((processViewports gizmo mouse theViews s).2.map (fun o => o.gizmoRan)).countP
        (fun b => b) := by
    rw [List.countP_map]
    rfl
  rw [hc, hmap]
  rcases check_cases mouse with h | ⟨k, hk, ho⟩
  · simp [h 0, h 1, h 2, h 3, List.countP_cons]
  · fin_cases k
    · simp [ho 1 (by decide), ho 2 (by decide), ho 3 (by decide), List.countP_cons]
      split <;> norm_num
    · simp [ho 0 (by decide), ho 2 (by decide), ho 3 (by decide), List.countP_cons]
      split <;> norm_num
    · simp [ho 0 (by decide), ho 1 (by decide), ho 3 (by decide), List.countP_cons]
      split <;> norm_num
    · simp [ho 0 (by decide), ho 1 (by decide), ho 2 (by decide), List.countP_cons]
      split <;> norm_num

/-- Witness for C1: concrete frame with the mouse at (500, 300). -/
theorem C1_at_most_one_active_viewport_witness :
    (processViewports (fun _ t => t) ⟨500, 300⟩ theViews
      ⟨MouseRemap.identity, GizmoIdentity⟩).2.countP (fun o => o.gizmoRan) ≤ 1 :=
  (C1_at_most_one_active_viewport (fun _ t => t) ⟨500, 300⟩
    ⟨MouseRemap.identity, GizmoIdentity⟩ rfl).2.1

/-- C2: the remap/unmap pairing is strict. Over any viewport list, if the
frame starts with the identity remap (offset (0,0), scale (1,1)), then
every per-viewport iteration starts with the identity remap and ends with
the identity remap (so an installed remap is always uninstalled before the
next viewport begins), and the remap state after the whole pass is again
the identity. -/
theorem C2_remap_unmap_strictly_paired (gizmo : GizmoFun) (mouse : Vector2)
    (vs : List Viewport) (s : LoopState) (hs : s.remap = MouseRemap.identity) :
    (processViewports gizmo mouse vs s).1.remap = MouseRemap.identity
    ∧ ∀ o ∈ (processViewports gizmo mouse vs s).2,
        o.remapAtStart = MouseRemap.identity ∧ o.remapAtEnd = MouseRemap.identity := by
  induction vs generalizing s with
  | nil => simpa [processViewports] using hs
  | cons v rest ih =>
    by_cases hc : CheckCollisionPointRec (remappedMouse s.remap mouse) v.area = true
    · have h := ih ⟨MouseRemap.identity,
        gizmo (remappedMouse (installedRemap v) mouse) s.crate⟩ rfl
      refine ⟨by simpa [processViewports, processViewport, hc] using h.1, ?_⟩
      intro o ho
      simp only [processViewports, processViewport, hc, if_pos, List.mem_cons] at ho
      rcases ho with ho | ho
      · subst ho
        exact ⟨hs, rfl⟩
      · exact h.2 o ho
    · have h := ih s hs
      refine ⟨by simpa [processViewports, processViewport, hc] using h.1, ?_⟩
      intro o ho
      simp only [processViewports, processViewport, hc, if_neg, List.mem_cons] at ho
      rcases ho with ho | ho
      · subst ho
        exact ⟨hs, hs⟩
      · exact h.2 o ho

/-- Witness for C2: after a concrete frame over the real viewport list the
remap state is back to the identity. -/
theorem C2_remap_unmap_strictly_paired_witness :
    (processViewports (fun _ t => t) ⟨500, 300⟩ theViews
      ⟨MouseRemap.identity, GizmoIdentity⟩).1.remap = MouseRemap.identity :=
  (C2_remap_unmap_strictly_paired (fun _ t => t) ⟨500, 300⟩ theViews
    ⟨MouseRemap.identity, GizmoIdentity⟩ rfl).1

/-- C7: if the mouse is contained in no viewport's rectangle, the frame is
a no-op for input handling: the loop state (remap state and shared crate
transform) is unchanged, no gizmo call runs, and no remap is installed in
any iteration. -/
theorem C7_pointer_outside_all_viewports_is_noop (gizmo : GizmoFun) (mouse : Vector2)
    (s : LoopState) (hs : s.remap = MouseRemap.identity)
    (h : ∀ i : Fin 4, CheckCollisionPointRec mouse (theArea i) = false) :
    (processViewports gizmo mouse theViews s).1 = s
    ∧ (processViewports gizmo mouse theViews s).2.map
        (fun o => (o.gizmoRan, o.remapInstalled)) = List.replicate 4 (false, none) := by
  have h0 := h 0
  have h1 := h 1
  have h2 := h 2
  have h3 := h 3
  simp only [theArea, theView] at h0 h1 h2 h3
  constructor <;>
    simp [processViewports, processViewport, theViews, mkViews, hs,
      remappedMouse_identity, h0, h1, h2, h3, List.replicate]

/-- Witness for C7: the mouse at (1000, 1000) is outside the 960×540
window, hence outside all four rectangles, and the frame changes nothing. -/
theorem C7_pointer_outside_all_viewports_is_noop_witness :
    (processViewports (fun _ t => t) ⟨1000, 1000⟩ theViews
      ⟨MouseRemap.identity, GizmoIdentity⟩).1 = ⟨MouseRemap.identity, GizmoIdentity⟩
    ∧ (processViewports (fun _ t => t) ⟨1000, 1000⟩ theViews
        ⟨MouseRemap.identity, GizmoIdentity⟩).2.map
        (fun o => (o.gizmoRan, o.remapInstalled)) = List.replicate 4 (false, none) :=
  C7_pointer_outside_all_viewports_is_noop (fun _ t => t) ⟨1000, 1000⟩
    ⟨MouseRemap.identity, GizmoIdentity⟩ rfl
    (by
      intro i
      fin_cases i
      · show CheckCollisionPointRec ⟨1000, 1000⟩ (theArea 0) = false
        norm_num [CheckCollisionPointRec, theArea_0]
      · show CheckCollisionPointRec ⟨1000, 1000⟩ (theArea 1) = false
        norm_num [CheckCollisionPointRec, theArea_1]
      · show CheckCollisionPointRec ⟨1000, 1000⟩ (theArea 2) = false
        norm_num [CheckCollisionPointRec, theArea_2]
      · show CheckCollisionPointRec ⟨1000, 1000⟩ (theArea 3) = false
        norm_num [CheckCollisionPointRec, theArea_3])

/-- C10: within one frame, each viewport's model draw uses the world matrix
recomputed from the shared transform as it stands at that iteration, and
the active viewport's gizmo call runs after that viewport's own model draw;
hence when viewport `k` is the (unique) one containing the mouse, viewports
0..k draw `GizmoToMatrix` of the pre-mutation transform and viewports
k+1..3 draw `GizmoToMatrix` of the post-mutation transform, which is also
the frame's final shared transform. -/
theorem C10_mutation_visible_to_later_viewports (gizmo : GizmoFun) (mouse : Vector2)
    (t : Transform) (k : Fin 4)
    (hk : CheckCollisionPointRec mouse (theArea k) = true)
    (ho : ∀ j : Fin 4, j ≠ k → CheckCollisionPointRec mouse (theArea j) = false) :
    ((processViewports gizmo mouse theViews ⟨MouseRemap.identity, t⟩).2.map
        (fun o => o.drawnMatrix) =
      List.replicate ((k : ℕ) + 1) (GizmoToMatrix t) ++
      List.replicate (3 - (k : ℕ))
        (GizmoToMatrix (gizmo (remappedMouse (installedRemap (theView k)) mouse) t)))
    ∧ (processViewports gizmo mouse theViews ⟨MouseRemap.identity, t⟩).1.crate =
        gizmo (remappedMouse (installedRemap (theView k)) mouse) t := by
  fin_cases k
  · have h1 := ho 1 (by decide)
    have h2 := ho 2 (by decide)
    have h3 := ho 3 (by decide)
    simp only [theArea, theView] at hk h1 h2 h3
    have hk2 : CheckCollisionPointRec mouse (mkViewport CAM_POSITIONS 0).area = true := hk
    constructor <;>
      simp [processViewports, processViewport, theViews, mkViews, theView,
        remappedMouse_identity, hk2, h1, h2, h3, List.replicate]
  · have h0 := ho 0 (by decide)
    have h2 := ho 2 (by decide)
    have h3 := ho 3 (by decide)
    simp only [theArea, theView] at hk h0 h2 h3
    have hk2 : CheckCollisionPointRec mouse (mkViewport CAM_POSITIONS 1).area = true := hk
    constructor <;>
      simp [processViewports, processViewport, theViews, mkViews, theView,
        remappedMouse_identity, hk2, h0, h2, h3, List.replicate]
  · have h0 := ho 0 (by decide)
    have h1 := ho 1 (by decide)
    have h3 := ho 3 (by decide)
    simp only [theArea, theView] at hk h0 h1 h3
    have hk2 : CheckCollisionPointRec mouse (mkViewport CAM_POSITIONS 2).area = true := hk
    constructor <;>
      simp [processViewports, processViewport, theViews, mkViews, theView,
        remappedMouse_identity, hk2, h0, h1, h3, List.replicate]
  · have h0 := ho 0 (by decide)
    have h1 := ho 1 (by decide)
    have h2 := ho 2 (by decide)
    simp only [theArea, theView] at hk h0 h1 h2
    have hk2 : CheckCollisionPointRec mouse (mkViewport CAM_POSITIONS 3).area = true := hk
    constructor <;>
      simp [processViewports, processViewport, theViews, mkViews, theView,
        remappedMouse_identity, hk2, h0, h1, h2, List.replicate]

/-- Witness for C10: the mouse at (500, 300) activates viewport 3, and the
frame's final crate transform is the gizmo's output on the pre-mutation
transform. -/
theorem C10_mutation_visible_to_later_viewports_witness :
    (processViewports (fun _ t => t) ⟨500, 300⟩ theViews
        ⟨MouseRemap.identity, GizmoIdentity⟩).1.crate =
      (fun _ t => t) (remappedMouse (installedRemap (theView 3)) ⟨500, 300⟩)
        GizmoIdentity :=
  (C10_mutation_visible_to_later_viewports (fun _ t => t) ⟨500, 300⟩ GizmoIdentity 3
    (by rw [check_iff, theArea_3]; norm_num)
    (by
      intro j hj
      fin_cases j
      · show CheckCollisionPointRec ⟨500, 300⟩ (theArea 0) = false
        norm_num [CheckCollisionPointRec, theArea_0]
      · show CheckCollisionPointRec ⟨500, 300⟩ (theArea 1) = false
        norm_num [CheckCollisionPointRec, theArea_1]
      · show CheckCollisionPointRec ⟨500, 300⟩ (theArea 2) = false
        norm_num [CheckCollisionPointRec, theArea_2]
      · exact absurd rfl hj)).2

lemma cleanupTrace_eq :
    cleanupTrace = [Event.unloadRenderTexture 0, Event.unloadRenderTexture 1,
      Event.unloadRenderTexture 2, Event.unloadRenderTexture 3,
      Event.unloadTexture, Event.unloadModel, Event.closeWindow] := rfl

lemma viewportEvents_isFrame (k : ℕ) (o : ViewportOutput) :
    ∀ e ∈ viewportEvents k o, e.isFrameEvent = true := by
  intro e he
  by_cases hg : o.gizmoRan = true
  · simp [viewportEvents, hg] at he
    rcases he with he | he | he <;> subst he <;> rfl
  · simp [viewportEvents, hg] at he
    rcases he with he | he <;> subst he <;> rfl

lemma frameTraceAux_isFrame (outs : List ViewportOutput) :
    ∀ k : ℕ, ∀ e ∈ frameTraceAux k outs, e.isFrameEvent = true := by
  induction outs with
  | nil =>
    intro k e he
    simp [frameTraceAux] at he
  | cons o rest ih =>
    intro k e he
    simp only [frameTraceAux, List.mem_append] at he
    rcases he with he | he
    · exact viewportEvents_isFrame k o e he
    · exact ih (k + 1) e he

/-- Every event emitted by the main loop is a frame event: the loop never
unloads a resource or closes the window. -/
lemma runFrames_isFrame (gizmo : GizmoFun) (inputs : List Vector2) :
    ∀ s : LoopState, ∀ e ∈ (runFrames gizmo inputs s).1, e.isFrameEvent = true := by
  induction inputs with
  | nil =>
    intro s e he
    simp [runFrames] at he
  | cons m ms ih =>
    intro s e he
    simp only [runFrames, List.mem_append] at he
    rcases he with he | he
    · exact frameTraceAux_isFrame _ 0 e he
    · exact ih _ e he

lemma runFrames_count_zero (gizmo : GizmoFun) (inputs : List Vector2) (s : LoopState)
    (e : Event) (he : e.isFrameEvent = false) :
    (runFrames gizmo inputs s).1.count e = 0 := by
  rw [List.count_eq_zero]
  intro hmem
  have h := runFrames_isFrame gizmo inputs s e hmem
  rw [he] at h
  exact Bool.false_ne_true h

/-- C8: on every terminating execution (any number of frames with any mouse
inputs and any gizmo behaviour), the trace ends with the cleanup sequence:
each of the four render targets is unloaded exactly once, then the texture
and the model are unloaded and the window is closed, with `CloseWindow`
last; no frame event unloads anything, so no exit path skips or duplicates
the cleanup. -/
theorem C8_shutdown_releases_each_resource_once (gizmo : GizmoFun)
    (inputs : List Vector2) :
    (∃ pre, mainTrace gizmo inputs = pre ++ cleanupTrace ∧
       ∀ e ∈ pre, e.isFrameEvent = true)
    ∧ (∀ k : ℕ, k < VIEWPORT_COUNT →
        (mainTrace gizmo inputs).count (Event.unloadRenderTexture k) = 1)
    ∧ (mainTrace gizmo inputs).count Event.unloadTexture = 1
    ∧ (mainTrace gizmo inputs).count Event.unloadModel = 1
    ∧ (mainTrace gizmo inputs).count Event.closeWindow = 1
    ∧ (mainTrace gizmo inputs).getLast? = some Event.closeWindow := by
  refine ⟨⟨(runFrames gizmo inputs ⟨MouseRemap.identity, GizmoIdentity⟩).1, rfl,
    runFrames_isFrame gizmo inputs _⟩, ?_, ?_, ?_, ?_, ?_⟩
  · intro k hk
    simp only [VIEWPORT_COUNT] at hk
    rw [mainTrace, List.count_append,
      runFrames_count_zero gizmo inputs _ (Event.unloadRenderTexture k) rfl,
      cleanupTrace_eq]
    interval_cases k <;> decide
  · rw [mainTrace, List.count_append,
      runFrames_count_zero gizmo inputs _ Event.unloadTexture rfl, cleanupTrace_eq]
    decide
  · rw [mainTrace, List.count_append,
      runFrames_count_zero gizmo inputs _ Event.unloadModel rfl, cleanupTrace_eq]
    decide
  · rw [mainTrace, List.count_append,
      runFrames_count_zero gizmo inputs _ Event.closeWindow rfl, cleanupTrace_eq]
    decide
  · rw [mainTrace, List.getLast?_append_of_ne_nil _ (by simp [cleanupTrace_eq])]
    rfl

/-- Witness for C8: a two-frame run; render target 0 is unloaded exactly
once. -/
theorem C8_shutdown_releases_each_resource_once_witness :
    (mainTrace (fun _ t => t) [⟨500, 300⟩, ⟨1000, 1000⟩]).count
      (Event.unloadRenderTexture 0) = 1 :=
  (C8_shutdown_releases_each_resource_once (fun _ t => t)
    [⟨500, 300⟩, ⟨1000, 1000⟩]).2.1 0 (by norm_num [VIEWPORT_COUNT])

/-- C5: the compositing draw of viewport `i` uses the full offscreen
texture with vertically flipped source rectangle `{0, 0, width, -height}`
at destination `(rect.x, rect.y)`; consequently a pixel at offscreen
texture coordinate `(x, y)` is shown at the blit's destination pixel
`(x, height - 1 - y)`, that is, at window coordinate
`(rect.x + x, rect.y + (height - 1 - y))`. -/
theorem C5_composite_applies_vertical_flip (i : Fin 4) (x y : ℚ)
    (hx0 : 0 ≤ x) (hx : x < ((theView i).rt.width : ℚ))
    (hy0 : 0 ≤ y) (hy : y < ((theView i).rt.height : ℚ)) :
    compositeSource (theView i) =
      ⟨0, 0, ((theView i).rt.width : ℚ), -((theView i).rt.height : ℚ)⟩
    ∧ sampledTexel (compositeSource (theView i)) x
        (((theView i).rt.height : ℚ) - 1 - y) = ⟨x, y⟩
    ∧ blitDestPixel (compositeDest (theView i)) x
        (((theView i).rt.height : ℚ) - 1 - y) =
      ⟨(theArea i).x + x, (theArea i).y + (((theView i).rt.height : ℚ) - 1 - y)⟩ := by
  refine ⟨rfl, ?_, ?_⟩ <;>
    fin_cases i <;>
      norm_num [sampledTexel, blitDestPixel, compositeSource, compositeDest, theArea,
        theView, mkViewport, truncQ, HALF_W, HALF_H, SCREEN_WIDTH, SCREEN_HEIGHT,
        Vector2.mk.injEq]

/-- Witness for C5: texel (20, 30) of viewport 3's target is shown at
destination pixel (20, 239) of the blit, i.e. window coordinate
(480 + 20, 270 + 239). -/
theorem C5_composite_applies_vertical_flip_witness :
    compositeSource (theView 3) =
      ⟨0, 0, ((theView 3).rt.width : ℚ), -((theView 3).rt.height : ℚ)⟩
    ∧ sampledTexel (compositeSource (theView 3)) 20
        (((theView 3).rt.height : ℚ) - 1 - 30) = ⟨20, 30⟩
    ∧ blitDestPixel (compositeDest (theView 3)) 20
        (((theView 3).rt.height : ℚ) - 1 - 30) =
      ⟨(theArea 3).x + 20, (theArea 3).y + (((theView 3).rt.height : ℚ) - 1 - 30)⟩ :=
  C5_composite_applies_vertical_flip 3 20 30 (by norm_num)
    (by norm_num [theView, mkViewport, truncQ, HALF_W, SCREEN_WIDTH, finVal3])
    (by norm_num)
    (by norm_num [theView, mkViewport, truncQ, HALF_H, SCREEN_HEIGHT, finVal3])

end Example03
